import Mathlib

/-!
# Fredo ERCA Hub — verification of the official identity & access subsystem

Shallow embedding of the ERCA authentication / officials-management endpoints
of `src/index.tsx` (Hono app over a Cloudflare D1/SQLite store).

Modelling conventions:
* The D1 database is a record of three tables (`erca_officials`,
  `erca_sessions`, `erca_audit_logs`), each a Lean list; SQL `first()` is
  `List.find?` in row order, `DELETE ... WHERE` is `List.filter`,
  `UPDATE ... WHERE` is `List.map` guarded on the `WHERE` condition, and
  `INSERT` is list append (with the schema's UNIQUE constraints of
  migration `0005_erca_officials_system.sql` checked explicitly, a
  violation surfacing as a thrown error that the endpoint's `try/catch`
  turns into a 500 response).
* Timestamps (`Date.now()`, `expires_at`, `datetime('now')`) are modelled
  on one numeric timeline as `Nat` milliseconds; `expires_at > datetime('now')`
  and `new Date(expires_at) < new Date()` become strict `Nat` comparisons.
* SHA-256 (`hashPassword` / `crypto.subtle.digest`) is a platform
  primitive; the handlers use it only through equality of digests, so it is
  passed as an explicit function parameter `hashFn : String → String`.
* `Math.random().toString(36).substring(7)` in the login handler is a
  request-environment input `randSuffix : String` (one value per call,
  derived from a single 64-bit float — see the token theorems).
* The file registers the routes in source order; Hono dispatches each
  request to the FIRST route registered for its method and path, so the
  handlers at lines 35 (`login`), 174 (`validate`) and 236 (`logout`) are
  the effective ones and the duplicates at lines 2106/2187/2215 are
  unreachable.  The embedding follows the effective handlers.
-/

namespace ErcaHub

/-- A row of `erca_officials` (migration `0005_erca_officials_system.sql`). -/
structure Official where
  id : Nat
  employee_id : String
  full_name : String
  email : String
  phone : Option String
  password_hash : String
  department : String
  rank_name : String
  office_location : Option String
  is_super_admin : Bool
  is_active : Bool
  can_view_businesses : Bool
  can_view_transactions : Bool
  can_view_reports : Bool
  can_manage_officials : Bool
  can_audit_businesses : Bool
  can_issue_penalties : Bool
  account_locked : Bool
  failed_login_attempts : Nat
  last_login : Option Nat
  created_at : Nat
  updated_at : Nat
  created_by : Option Nat
deriving Repr, DecidableEq

/-- A row of `erca_sessions`. -/
structure Session where
  official_id : Nat
  session_token : String
  ip_address : Option String
  user_agent : Option String
  expires_at : Nat
  created_at : Nat
  last_activity : Nat
deriving Repr, DecidableEq

/-- A row of `erca_audit_logs`. -/
structure AuditLogEntry where
  official_id : Nat
  action : String
  entity_type : Option String
  entity_id : Option Nat
  details : Option String
  ip_address : Option String
  user_agent : Option String
  created_at : Nat
deriving Repr, DecidableEq

/-- The D1 database state: the three tables of the subsystem. -/
structure DB where
  officials : List Official
  sessions : List Session
  audit_logs : List AuditLogEntry
deriving Repr, DecidableEq

/-- `AUTOINCREMENT` id for a fresh `erca_officials` row
(`result.meta.last_row_id`): one more than the largest existing id. -/
def nextOfficialId (db : DB) : Nat :=
  (db.officials.map (·.id)).foldr max 0 + 1

/-- SQL `JOIN erca_officials ON official_id = id` after fetching one session
row by its (UNIQUE) token: the joined row, when both sides exist. -/
def joinSession (db : DB) (token : String) : Option (Session × Official) :=
  match db.sessions.find? (fun s => s.session_token = token) with
  | none => none
  | some s =>
    match db.officials.find? (fun o => o.id = s.official_id) with
    | none => none
    | some o => some (s, o)

/-- The session token built inline by the effective login route
(line 95): `erca_${Date.now()}_${Math.random().toString(36).substring(7)}`. -/
def loginTokenString (nowMs : Nat) (randSuffix : String) : String :=
  "erca_" ++ toString nowMs ++ "_" ++ randSuffix

/-- One byte rendered as two lowercase hex digits
(`byte.toString(16).padStart(2, '0')`). -/
def byteHex (b : Nat) : String :=
  let digits := "0123456789abcdef".toList
  String.mk [digits.getD (b / 16 % 16) 'x', digits.getD (b % 16) 'x']

/-- `generateSessionToken` (line 2058): 32 cryptographically random bytes,
hex encoded.  Only the shadowed duplicate login route (line 2106) calls it;
the effective login route (line 35) never does. -/
def generateSessionToken (bytes : List Nat) : String :=
  String.join (bytes.map byteHex)

/-! ## POST /api/erca/auth/login (effective handler, lines 35–171) -/

inductive LoginResponse where
  /-- 400: `Employee ID and password are required`. -/
  | badRequest
  /-- 401: `Invalid employee ID or password`. -/
  | invalidCredentials
  /-- 403: `Account is inactive. Contact your administrator.` -/
  | inactive
  /-- 403: `Account is locked. Contact your administrator.` -/
  | locked
  /-- 500: a thrown error caught by the handler's `catch`;
  the response body is `{ error: error.message }`. -/
  | serverError
  /-- 200: `{ success: true, official: {...}, session_token, expires_at }`. -/
  | success (official_id : Nat) (session_token : String) (expires_at : Nat)
deriving Repr, DecidableEq

/-- The `WHERE (employee_id = ? OR email = ?) AND password_hash = ?` row
predicate of the login query. -/
def credentialMatch (loginId passwordHash : String) (o : Official) : Bool :=
  (o.employee_id = loginId ∨ o.email = loginId) ∧ o.password_hash = passwordHash

/-- Effective `POST /api/erca/auth/login` handler.  `loginId` is
`employee_id || username` from the body (empty string for a missing/falsy
field), `randSuffix` the decoded `Math.random()` draw, `auditOk` whether the
audit-log INSERT succeeds (a failure throws into the `catch`). -/
def login (hashFn : String → String) (db : DB) (now : Nat)
    (loginId password : String) (randSuffix : String)
    (ip ua : Option String) (auditOk : Bool) : LoginResponse × DB :=
  if loginId = "" ∨ password = "" then (.badRequest, db)
  else
    let passwordHash := hashFn password
    match db.officials.find? (credentialMatch loginId passwordHash) with
    | none => (.invalidCredentials, db)
    | some official =>
      if ¬ official.is_active then (.inactive, db)
      else if official.account_locked then (.locked, db)
      else
        let sessionToken := loginTokenString now randSuffix
        let expiresAt := now + 24 * 60 * 60 * 1000
        -- INSERT INTO erca_sessions: UNIQUE(session_token) violation throws.
        if db.sessions.any (fun s => s.session_token = sessionToken) then
          (.serverError, db)
        else
          let db1 : DB := { db with sessions := db.sessions ++
            [{ official_id := official.id, session_token := sessionToken,
               ip_address := ip, user_agent := ua, expires_at := expiresAt,
               created_at := now, last_activity := now }] }
          let db2 : DB := { db1 with officials := db1.officials.map (fun o =>
            if o.id = official.id then
              { o with last_login := some now, failed_login_attempts := 0 }
            else o) }
          if auditOk then
            let db3 : DB := { db2 with audit_logs := db2.audit_logs ++
              [{ official_id := official.id, action := "login",
                 entity_type := none, entity_id := none, details := none,
                 ip_address := ip, user_agent := ua, created_at := now }] }
            (.success official.id sessionToken expiresAt, db3)
          else (.serverError, db2)

/-! ## POST /api/erca/auth/validate (effective handler, lines 174–233) -/

inductive ValidateResponse where
  /-- 400: `No session token provided`. -/
  | noToken
  /-- 200 `{ valid: false, error: 'Invalid session' }`. -/
  | invalidSession
  /-- 200 `{ valid: false, error: 'Session expired' }`. -/
  | expired
  /-- 200 `{ valid: false, error: 'Account is inactive' }`. -/
  | inactiveAccount
  /-- 200 `{ valid: false, error: 'Account is locked' }`. -/
  | lockedAccount
  /-- 200 `{ valid: true, official_id }`. -/
  | valid (official_id : Nat)
deriving Repr, DecidableEq

/-- Whether the response reports `valid: true`. -/
def ValidateResponse.isValid : ValidateResponse → Bool
  | .valid _ => true
  | _ => false

/-- Effective `POST /api/erca/auth/validate` handler. -/
def validate (db : DB) (now : Nat) (token : String) : ValidateResponse × DB :=
  if token = "" then (.noToken, db)
  else
    match joinSession db token with
    | none => (.invalidSession, db)
    | some (s, o) =>
      if s.expires_at < now then
        -- DELETE FROM erca_sessions WHERE session_token = ?
        (.expired, { db with
          sessions := db.sessions.filter (fun x => x.session_token ≠ token) })
      else if ¬ o.is_active then (.inactiveAccount, db)
      else if o.account_locked then (.lockedAccount, db)
      else
        (.valid s.official_id, { db with
          sessions := db.sessions.map (fun x =>
            if x.session_token = token then { x with last_activity := now }
            else x) })

/-! ## POST /api/erca/auth/logout (effective handler, lines 236–273) -/

inductive LogoutResponse where
  /-- 200: `{ success: true, message: 'Logged out successfully' }`. -/
  | success
deriving Repr, DecidableEq

/-- Effective `POST /api/erca/auth/logout` handler.  Note the source order:
it first DELETEs the session row by token, and only then SELECTs
`official_id` from `erca_sessions` by the same token to write the audit
entry — the row is already gone, so the `if (session)` guard is never taken
and no `logout` audit entry is written. -/
def logout (db : DB) (now : Nat) (token : String)
    (ip ua : Option String) : LogoutResponse × DB :=
  if token = "" then (.success, db)
  else
    let db1 : DB := { db with
      sessions := db.sessions.filter (fun x => x.session_token ≠ token) }
    match db1.sessions.find? (fun s => s.session_token = token) with
    | some s =>
      (.success, { db1 with audit_logs := db1.audit_logs ++
        [{ official_id := s.official_id, action := "logout",
           entity_type := none, entity_id := none, details := none,
           ip_address := ip, user_agent := ua, created_at := now }] })
    | none => (.success, db1)

/-! ## Shared helpers for the remaining endpoints -/

/-- JS truthiness of an optional string field: present and non-empty. -/
def jsPresent (x : Option String) : Bool :=
  match x with
  | some s => s ≠ ""
  | none => false

/-- `x || d` on an optional string field. -/
def jsStrOr (x : Option String) (d : String) : String :=
  match x with
  | some s => if s = "" then d else s
  | none => d

/-- `x || null` on an optional string field bound into an INSERT. -/
def jsOptStr (x : Option String) : Option String :=
  match x with
  | some s => if s = "" then none else some s
  | none => none

/-- The anchored email regex of the register endpoint,
`/^[^\s@]+@[^\s@]+\.[^\s@]+$/`: no whitespace, exactly one `@` with a
non-empty part before it, and a `.` in the domain that is neither its
first nor its last character. -/
def validEmail (s : String) : Bool :=
  let cs := s.toList
  let lpart := cs.takeWhile (fun c => c ≠ '@')
  match cs.dropWhile (fun c => c ≠ '@') with
  | '@' :: dpart =>
    lpart ≠ [] ∧ (¬ dpart.any (fun c => c = '@')) ∧
    (¬ cs.any (fun c => c.isWhitespace)) ∧
    ((dpart.drop 1).dropLast.contains '.')
  | _ => false

/-- Insert into a list sorted by `le` (used to model SQL `ORDER BY`). -/
def insertSortedBy (le : α → α → Bool) (a : α) : List α → List α
  | [] => [a]
  | b :: bs => if le a b then a :: b :: bs else b :: insertSortedBy le a bs

/-- Insertion sort by `le` (models SQL `ORDER BY`). -/
def sortRowsBy (le : α → α → Bool) : List α → List α
  | [] => []
  | a :: rest => insertSortedBy le a (sortRowsBy le rest)

/-- The inline session query shared verbatim by the admin endpoints and the
change-password endpoint:
`SELECT o.* FROM erca_sessions s JOIN erca_officials o ON s.official_id = o.id
 WHERE s.session_token = ? AND o.is_active = 1 AND s.expires_at > datetime('now')`.
Note it checks `is_active` but not `account_locked`. -/
def adminSessionOwner (db : DB) (now : Nat) (token : String) : Option Official :=
  match joinSession db token with
  | some (s, o) => if o.is_active ∧ now < s.expires_at then some o else none
  | none => none

/-! ## POST /api/erca/auth/register (lines 276–396) -/

/-- The optional `permissions` object of the register body. -/
structure RegisterPermissions where
  is_super_admin : Option Bool
  can_view_businesses : Option Bool
  can_view_transactions : Option Bool
  can_view_reports : Option Bool
  can_manage_officials : Option Bool
  can_audit_businesses : Option Bool
  can_issue_penalties : Option Bool
deriving Repr, DecidableEq

/-- Request body of the register endpoint (empty string = missing/falsy
field, as the handler only tests these with JS truthiness). -/
structure RegisterBody where
  employee_id : String
  full_name : String
  email : String
  phone : Option String
  password : String
  department : String
  rank_name : String
  office_location : Option String
  permissions : Option RegisterPermissions
  created_by_token : Option String
deriving Repr, DecidableEq

inductive RegisterResponse where
  /-- 400: `Missing required fields`. -/
  | missingFields
  /-- 400: `Invalid email format`. -/
  | badEmail
  /-- 400: `Password must be at least 8 characters long`. -/
  | weakPassword
  /-- 403: `Unauthorized. Only super admins can register officials.` -/
  | unauthorized
  /-- 400: `Employee ID or email already exists`. -/
  | duplicate
  /-- 200: `{ success: true, official: {...} }`. -/
  | success (official_id : Nat)
deriving Repr, DecidableEq

/-- `permissions?.f || 0` (falsy default). -/
def permOr0 (perms : Option RegisterPermissions)
    (f : RegisterPermissions → Option Bool) : Bool :=
  (perms.bind f).getD false

/-- `permissions?.f !== undefined ? permissions.f : 1` (presence default). -/
def permOr1 (perms : Option RegisterPermissions)
    (f : RegisterPermissions → Option Bool) : Bool :=
  (perms.bind f).getD true

/-- `POST /api/erca/auth/register`.  Validations in source order; the
creator-token gate runs only when a truthy `created_by_token` is supplied
and requires an unexpired session of a super admin (it checks neither
`is_active` nor `account_locked`); a duplicate employee id or email is
caught by an explicit pre-check and reported as a 400.  No audit entry is
written by this endpoint. -/
def register (hashFn : String → String) (db : DB) (now : Nat)
    (body : RegisterBody) : RegisterResponse × DB :=
  if body.employee_id = "" ∨ body.full_name = "" ∨ body.email = "" ∨
      body.password = "" ∨ body.department = "" ∨ body.rank_name = "" then
    (.missingFields, db)
  else if ¬ validEmail body.email then (.badEmail, db)
  else if body.password.length < 8 then (.weakPassword, db)
  else
    let creatorOk : Bool :=
      match body.created_by_token with
      | none => true
      | some tok =>
        if tok = "" then true
        else
          match joinSession db tok with
          | some (s, o) => now < s.expires_at ∧ o.is_super_admin
          | none => false
    if ¬ creatorOk then (.unauthorized, db)
    else if db.officials.any (fun o =>
        o.employee_id = body.employee_id ∨ o.email = body.email) then
      (.duplicate, db)
    else
      let newId := nextOfficialId db
      let row : Official :=
        { id := newId, employee_id := body.employee_id,
          full_name := body.full_name, email := body.email,
          phone := jsOptStr body.phone,
          password_hash := hashFn body.password,
          department := body.department, rank_name := body.rank_name,
          office_location := jsOptStr body.office_location,
          is_super_admin := permOr0 body.permissions (·.is_super_admin),
          is_active := true,
          can_view_businesses := permOr1 body.permissions (·.can_view_businesses),
          can_view_transactions := permOr1 body.permissions (·.can_view_transactions),
          can_view_reports := permOr1 body.permissions (·.can_view_reports),
          can_manage_officials := permOr0 body.permissions (·.can_manage_officials),
          can_audit_businesses := permOr0 body.permissions (·.can_audit_businesses),
          can_issue_penalties := permOr0 body.permissions (·.can_issue_penalties),
          account_locked := false, failed_login_attempts := 0,
          last_login := none, created_at := now, updated_at := now,
          created_by := none }
      (.success newId, { db with officials := db.officials ++ [row] })

/-! ## GET /api/erca/officials (lines 399–450) -/

inductive OfficialsListResponse where
  /-- 401: `Authentication required`. -/
  | authRequired
  /-- 403: `Unauthorized. Super admin access required.` -/
  | forbidden
  /-- 200: `{ officials }`, ordered by `created_at DESC`. -/
  | ok (officials : List Official)
deriving Repr, DecidableEq

/-- `GET /api/erca/officials`.  Its inline session check requires only that
the session exists and is unexpired and that the owner is a super admin: it
consults neither `is_active` nor `account_locked` nor `can_manage_officials`. -/
def getOfficials (db : DB) (now : Nat) (token : String) :
    OfficialsListResponse × DB :=
  if token = "" then (.authRequired, db)
  else
    match joinSession db token with
    | some (s, o) =>
      if now < s.expires_at ∧ o.is_super_admin then
        (.ok (sortRowsBy (fun a b => decide (b.created_at ≤ a.created_at))
          db.officials), db)
      else (.forbidden, db)
    | none => (.forbidden, db)

/-! ## GET /api/erca/admin/officials (lines 2228–2262) -/

inductive AdminListResponse where
  /-- 403: `Unauthorized`. -/
  | unauthorized
  /-- 200: `{ officials }`, ordered by `full_name ASC`. -/
  | ok (officials : List Official)
deriving Repr, DecidableEq

/-- `GET /api/erca/admin/officials`: authorized for a valid session of an
active official who is super admin or holds `can_manage_officials`. -/
def adminListOfficials (db : DB) (now : Nat) (token : String) :
    AdminListResponse × DB :=
  match adminSessionOwner db now token with
  | some o =>
    if o.is_super_admin ∨ o.can_manage_officials then
      (.ok (sortRowsBy (fun a b => decide (a.full_name ≤ b.full_name))
        db.officials), db)
    else (.unauthorized, db)
  | none => (.unauthorized, db)

/-! ## POST /api/erca/admin/officials (lines 2265–2322) -/

/-- Request body of the admin create endpoint.  `full_name`, `employee_id`
and `email` are bound directly into the INSERT; `rank` appears only inside
the audit `details` JSON. -/
structure CreateBody where
  full_name : String
  employee_id : String
  email : String
  phone : Option String
  password : Option String
  rank_name : Option String
  department : Option String
  office_location : Option String
  rank : Option String
deriving Repr, DecidableEq

inductive AdminCreateResponse where
  /-- 403: `Unauthorized`. -/
  | unauthorized
  /-- 500: a thrown error (e.g. a UNIQUE-constraint violation of the
  INSERT, or an audit-log INSERT failure) caught by the handler's `catch`;
  the body is `{ error: error.message }`. -/
  | serverError
  /-- 200: `{ success: true, official_id, default_password: '1234' }`. -/
  | success (official_id : Nat)
deriving Repr, DecidableEq

/-- The audit `details` payload of the create endpoint,
`JSON.stringify({ employee_id, rank: officialData.rank })`
(`undefined` properties are dropped by `JSON.stringify`). -/
def createDetails (body : CreateBody) : String :=
  "\x7b\"employee_id\":\"" ++ body.employee_id ++ "\"" ++
    (match body.rank with
     | some r => ",\"rank\":\"" ++ r ++ "\""
     | none => "") ++ "\x7d"

/-- `POST /api/erca/admin/officials`.  There is no duplicate pre-check: a
clash on the UNIQUE `employee_id`/`email` columns makes the INSERT throw,
and the `catch` returns a 500.  The schema defaults fill the permission
columns; the response always reports `default_password: '1234'` even when a
password was supplied. -/
def adminCreateOfficial (hashFn : String → String) (db : DB) (now : Nat)
    (token : String) (body : CreateBody) (auditOk : Bool) :
    AdminCreateResponse × DB :=
  match adminSessionOwner db now token with
  | none => (.unauthorized, db)
  | some owner =>
    if ¬ (owner.is_super_admin ∨ owner.can_manage_officials) then
      (.unauthorized, db)
    else if db.officials.any (fun o =>
        o.employee_id = body.employee_id ∨ o.email = body.email) then
      (.serverError, db)
    else
      let newId := nextOfficialId db
      let row : Official :=
        { id := newId, employee_id := body.employee_id,
          full_name := body.full_name, email := body.email,
          phone := body.phone,
          password_hash := hashFn (jsStrOr body.password "1234"),
          rank_name := jsStrOr body.rank_name "Official",
          department := jsStrOr body.department "General",
          office_location := jsOptStr body.office_location,
          is_super_admin := false, is_active := true,
          can_view_businesses := true, can_view_transactions := true,
          can_view_reports := true, can_manage_officials := false,
          can_audit_businesses := false, can_issue_penalties := false,
          account_locked := false, failed_login_attempts := 0,
          last_login := none, created_at := now, updated_at := now,
          created_by := some owner.id }
      let db1 : DB := { db with officials := db.officials ++ [row] }
      if auditOk then
        (.success newId, { db1 with audit_logs := db1.audit_logs ++
          [{ official_id := owner.id, action := "create_user",
             entity_type := some "official", entity_id := some newId,
             details := some (createDetails body), ip_address := none,
             user_agent := none, created_at := now }] })
      else (.serverError, db1)

/-! ## PUT /api/erca/admin/officials/:id (lines 2325–2396) -/

/-- The recognized fields of the update patch body.  The handler gates the
six text fields on JS truthiness (`if (updates.f)`) and `is_active` on
presence (`updates.is_active !== undefined`). -/
structure UpdatePatch where
  full_name : Option String
  email : Option String
  phone : Option String
  rank_name : Option String
  department : Option String
  office_location : Option String
  is_active : Option Bool
deriving Repr, DecidableEq

/-- Apply a truthy optional string field to a NOT NULL column. -/
def jsApply (x : Option String) (old : String) : String :=
  if jsPresent x then x.getD old else old

/-- Apply a truthy optional string field to a nullable column. -/
def jsApplyOpt (x : Option String) (old : Option String) : Option String :=
  if jsPresent x then x else old

/-- The row produced by the dynamic `UPDATE erca_officials SET ...` for the
matched official: the truthy text fields and any present `is_active`, plus
the unconditional `updated_at = CURRENT_TIMESTAMP`. -/
def applyPatch (p : UpdatePatch) (now : Nat) (o : Official) : Official :=
  { o with
    full_name := jsApply p.full_name o.full_name,
    email := jsApply p.email o.email,
    phone := jsApplyOpt p.phone o.phone,
    rank_name := jsApply p.rank_name o.rank_name,
    department := jsApply p.department o.department,
    office_location := jsApplyOpt p.office_location o.office_location,
    is_active := p.is_active.getD o.is_active,
    updated_at := now }

/-- The audit `details` payload of the update endpoint,
`JSON.stringify(updates)`, restricted to the recognized fields. -/
def patchJson (p : UpdatePatch) : String :=
  let fields : List String :=
    (match p.full_name with
     | some s => ["\"full_name\":\"" ++ s ++ "\""] | none => []) ++
    (match p.email with
     | some s => ["\"email\":\"" ++ s ++ "\""] | none => []) ++
    (match p.phone with
     | some s => ["\"phone\":\"" ++ s ++ "\""] | none => []) ++
    (match p.rank_name with
     | some s => ["\"rank_name\":\"" ++ s ++ "\""] | none => []) ++
    (match p.department with
     | some s => ["\"department\":\"" ++ s ++ "\""] | none => []) ++
    (match p.office_location with
     | some s => ["\"office_location\":\"" ++ s ++ "\""] | none => []) ++
    (match p.is_active with
     | some b => ["\"is_active\":" ++ (if b then "true" else "false")]
     | none => [])
  "\x7b" ++ String.intercalate "," fields ++ "\x7d"

inductive AdminUpdateResponse where
  /-- 403: `Unauthorized`. -/
  | unauthorized
  /-- 500: a thrown error (UNIQUE-constraint violation on `email`, or an
  audit-log INSERT failure) caught by the `catch`. -/
  | serverError
  /-- 200: `{ success: true, message: 'Official updated successfully' }`. -/
  | success
deriving Repr, DecidableEq

/-- The UNIQUE(email) violation condition of the dynamic UPDATE: a truthy
patched email, a matched target row, and another row already carrying that
email. -/
def emailConflict (db : DB) (id : Nat) (p : UpdatePatch) : Bool :=
  jsPresent p.email ∧ db.officials.any (fun o => o.id = id) ∧
    db.officials.any (fun o => o.id ≠ id ∧ some o.email = p.email)

/-- `PUT /api/erca/admin/officials/:id`.  A truthy patched `email` equal to
another official's email violates the UNIQUE constraint: the UPDATE throws
and the `catch` returns a 500 with the row unchanged. -/
def adminUpdateOfficial (db : DB) (now : Nat) (token : String) (id : Nat)
    (p : UpdatePatch) (auditOk : Bool) : AdminUpdateResponse × DB :=
  match adminSessionOwner db now token with
  | none => (.unauthorized, db)
  | some owner =>
    if ¬ (owner.is_super_admin ∨ owner.can_manage_officials) then
      (.unauthorized, db)
    else
      if emailConflict db id p then (.serverError, db)
      else
        let db1 : DB := { db with officials := db.officials.map (fun o =>
          if o.id = id then applyPatch p now o else o) }
        if auditOk then
          (.success, { db1 with audit_logs := db1.audit_logs ++
            [{ official_id := owner.id, action := "update_user",
               entity_type := some "official", entity_id := some id,
               details := some (patchJson p), ip_address := none,
               user_agent := none, created_at := now }] })
        else (.serverError, db1)

/-! ## POST /api/erca/auth/change-password (lines 2464–2516) -/

/-- Request body of the change-password endpoint. -/
structure ChangePasswordBody where
  employee_id : String
  current_password : String
  new_password : String
deriving Repr, DecidableEq

inductive ChangePasswordResponse where
  /-- 403: `Unauthorized`. -/
  | unauthorized
  /-- 401: `Current password is incorrect`. -/
  | wrongPassword
  /-- 500: an audit-log INSERT failure caught by the `catch` — note this
  also skips the session deletion that follows the audit INSERT. -/
  | serverError
  /-- 200: `{ success: true, message: 'Password changed successfully' }`. -/
  | success
deriving Repr, DecidableEq

/-- `POST /api/erca/auth/change-password`.  The bearer session only gates
access; the current password is verified against the official named by the
BODY's `employee_id`, that official's hash is replaced and that official's
sessions are deleted, while the audit entry is attributed to the SESSION
owner (`session.id`). -/
def changePassword (hashFn : String → String) (db : DB) (now : Nat)
    (token : String) (body : ChangePasswordBody) (auditOk : Bool) :
    ChangePasswordResponse × DB :=
  match adminSessionOwner db now token with
  | none => (.unauthorized, db)
  | some owner =>
    match db.officials.find? (fun o =>
        o.employee_id = body.employee_id ∧
        o.password_hash = hashFn body.current_password) with
    | none => (.wrongPassword, db)
    | some target =>
      let db1 : DB := { db with officials := db.officials.map (fun o =>
        if o.id = target.id then
          { o with password_hash := hashFn body.new_password,
                   updated_at := now }
        else o) }
      if auditOk then
        let db2 : DB := { db1 with audit_logs := db1.audit_logs ++
          [{ official_id := owner.id, action := "password_change",
             entity_type := none, entity_id := none,
             details := some "\x7b\"success\":true\x7d", ip_address := none,
             user_agent := none, created_at := now }] }
        (.success, { db2 with sessions := db2.sessions.filter (fun s =>
          s.official_id ≠ target.id) })
      else (.serverError, db1)

/-! ## Derived authorization predicates

These name the exact gate each endpoint applies, for the theorems below;
they unfold to the handlers' own checks. -/

/-- Whether the response of the effective login route is a success. -/
def LoginResponse.isSuccess : LoginResponse → Bool
  | .success _ _ _ => true
  | _ => false

/-- The gate of the admin officials list/create/update (and audit-logs uses
its super-admin half): a session of an active official, unexpired, owned by
a super admin or a holder of `can_manage_officials`. -/
def manageAuth (db : DB) (now : Nat) (token : String) : Bool :=
  match adminSessionOwner db now token with
  | some o => o.is_super_admin ∨ o.can_manage_officials
  | none => false

/-- The gate of `GET /api/erca/officials`: an unexpired session of a super
admin — `is_active`, `account_locked` and `can_manage_officials` play no
role. -/
def superOnlyAuth (db : DB) (now : Nat) (token : String) : Bool :=
  match joinSession db token with
  | some (s, o) => now < s.expires_at ∧ o.is_super_admin
  | none => false

/-! ## Concrete fixtures used by the closed theorems -/

/-- A baseline active, unlocked, non-admin official row. -/
def baseOfficial : Official :=
  { id := 0, employee_id := "E000", full_name := "Base Official",
    email := "base@erca.gov.et", phone := none, password_hash := "h0",
    department := "Audit", rank_name := "Officer", office_location := none,
    is_super_admin := false, is_active := true,
    can_view_businesses := true, can_view_transactions := true,
    can_view_reports := true, can_manage_officials := false,
    can_audit_businesses := false, can_issue_penalties := false,
    account_locked := false, failed_login_attempts := 0, last_login := none,
    created_at := 0, updated_at := 0, created_by := none }

/-- A session row for the fixtures. -/
def mkSession (oid : Nat) (tok : String) (expAt : Nat) : Session :=
  { official_id := oid, session_token := tok, ip_address := none,
    user_agent := none, expires_at := expAt, created_at := 0,
    last_activity := 0 }

/-- C1 fixture: one official with one live session. -/
def dbC1 : DB :=
  { officials := [{ baseOfficial with id := 1, employee_id := "E100" }],
    sessions := [mkSession 1 "tok-c1" 10000],
    audit_logs := [] }

/-- C1: the spec requires a successful logout of an existing session to
append exactly one `logout` audit entry (the repository's own documentation
lists `logout` among the audit action types).  The effective logout handler
instead deletes the session row and only then reads `official_id` from the
just-deleted row, so the audit INSERT is unreachable: logging out an
existing session returns success, removes the session, and appends NO audit
entry. -/
theorem C1_logout_appends_no_audit_entry :
    (logout dbC1 500 "tok-c1" none none).1 = .success ∧
    (logout dbC1 500 "tok-c1" none none).2.sessions = [] ∧
    (logout dbC1 500 "tok-c1" none none).2.audit_logs = [] :=
  ⟨rfl, rfl, rfl⟩

/-- C3 fixture official. -/
def oC3 : Official := { baseOfficial with id := 1, employee_id := "E300" }

/-- C3 fixture session, expiring at timestamp 100. -/
def sC3 : Session := mkSession 1 "tok-c3" 100

/-- C3 fixture database. -/
def dbC3 : DB := { officials := [oC3], sessions := [sC3], audit_logs := [] }

/-- C2 fixture: an INACTIVE super admin holding an unexpired session. -/
def oC2 : Official :=
  { baseOfficial with
    id := 1, employee_id := "E200",
    email := "c2@erca.gov.et", password_hash := "pw2",
    is_super_admin := true, is_active := false }

/-- C2 fixture database. -/
def dbC2 : DB :=
  { officials := [oC2], sessions := [mkSession 1 "tok-c2" 10000],
    audit_logs := [] }

/-- C2 counterexample: the claim says every inline session check, including
the one on the officials-listing endpoint, rejects sessions of officials
with `is_active = 0`.  But `GET /api/erca/officials` checks only expiry and
`is_super_admin`: the unexpired session of an inactive super admin is
accepted and the full officials list is returned. -/
theorem C2_counterexample :
    oC2.is_active = false ∧
    (getOfficials dbC2 500 "tok-c2").1 = .ok [oC2] :=
  ⟨rfl, rfl⟩

/-- C2 (amended): login and the validate endpoint reject inactive and
locked officials, and the admin endpoints' shared inline check only ever
resolves active officials; the inline check of `GET /api/erca/officials`
(and of the register endpoint) is the exception shown in the
counterexample. -/
theorem C2_inactive_rejection (hashFn : String → String) (db : DB)
    (now : Nat) (loginId password randSuffix : String) (ip ua : Option String)
    (auditOk : Bool) (token : String) :
    (∀ o, db.officials.find? (credentialMatch loginId (hashFn password)) = some o →
      (o.is_active = false ∨ o.account_locked = true) →
      ((login hashFn db now loginId password randSuffix ip ua auditOk).1).isSuccess = false) ∧
    (∀ s o, joinSession db token = some (s, o) →
      (o.is_active = false ∨ o.account_locked = true) →
      ((validate db now token).1).isValid = false) ∧
    (∀ o, adminSessionOwner db now token = some o → o.is_active = true) := by
  refine ⟨?_, ?_, ?_⟩
  · intro o hfind hbad
    by_cases h0 : loginId = "" ∨ password = ""
    · simp [login, h0, LoginResponse.isSuccess]
    · rcases hbad with hb | hb <;> by_cases hact : o.is_active = true <;>
        simp_all [login, LoginResponse.isSuccess]
  · intro s o hj hbad
    by_cases h0 : token = ""
    · simp [validate, h0, ValidateResponse.isValid]
    · rcases hbad with hb | hb
      · by_cases hexp : s.expires_at < now <;>
          simp [validate, h0, hj, hexp, hb, ValidateResponse.isValid]
      · by_cases hexp : s.expires_at < now
        · simp [validate, h0, hj, hexp, ValidateResponse.isValid]
        · by_cases hact : o.is_active = true <;>
            simp [validate, h0, hj, hexp, hact, hb, ValidateResponse.isValid]
  · intro o h
    unfold adminSessionOwner at h
    split at h
    · split at h
      · rename_i hcond
        cases h
        exact hcond.1
      · exact absurd h (by simp)
    · exact absurd h (by simp)

/-- C2 witness: concrete uses of each conjunct — the inactive super admin
of `dbC2` cannot log in or validate, and an admin-gate owner is active. -/
theorem C2_witness :
    ((login id dbC2 500 "E200" "pw2" "sfx" none none true).1).isSuccess = false ∧
    ((validate dbC2 500 "tok-c2").1).isValid = false ∧
    oC3.is_active = true :=
  ⟨(C2_inactive_rejection id dbC2 500 "E200" "pw2" "sfx" none none true "tok-c2").1
      oC2 rfl (Or.inl rfl),
   (C2_inactive_rejection id dbC2 500 "E200" "pw2" "sfx" none none true "tok-c2").2.1
      (mkSession 1 "tok-c2" 10000) oC2 rfl (Or.inl rfl),
   (C2_inactive_rejection id dbC3 50 "" "" "" none none true "tok-c3").2.2
      oC3 rfl⟩

/-- C3 counterexample: the claim says a session validated AT expiry
(`now = expires_at`) is invalid and deleted.  The handler tests
`expiresAt < now`, so at `now = expires_at` it reports the session valid
and keeps the row. -/
theorem C3_counterexample :
    sC3.expires_at = 100 ∧
    (validate dbC3 100 "tok-c3").1 = .valid 1 ∧
    (validate dbC3 100 "tok-c3").2.sessions.length = 1 :=
  ⟨rfl, rfl, rfl⟩

/-- C3 (amended): for a stored session, validation reports valid exactly
when `now ≤ expires_at` AND the owner is active and unlocked; validated
strictly after expiry the row is deleted and the result is invalid; a valid
validation changes only the session's `last_activity`. -/
theorem C3_validate_characterization (db : DB) (now : Nat) (token : String)
    (s : Session) (o : Official) (hne : token ≠ "")
    (hj : joinSession db token = some (s, o)) :
    (((validate db now token).1).isValid = true ↔
      (now ≤ s.expires_at ∧ o.is_active = true ∧ o.account_locked = false)) ∧
    (s.expires_at < now →
      validate db now token =
        (.expired, { db with
          sessions := db.sessions.filter (fun x => x.session_token ≠ token) })) ∧
    (((validate db now token).1).isValid = true →
      validate db now token =
        (.valid s.official_id, { db with
          sessions := db.sessions.map (fun x =>
            if x.session_token = token then { x with last_activity := now }
            else x) })) := by
  by_cases hexp : s.expires_at < now
  · have he : validate db now token =
        (.expired, { db with
          sessions := db.sessions.filter (fun x => x.session_token ≠ token) }) := by
      simp [validate, hne, hj, hexp]
    refine ⟨?_, fun _ => he, fun hc => ?_⟩
    · rw [he]
      exact iff_of_false (by simp [ValidateResponse.isValid])
        (fun h => absurd hexp (Nat.not_lt.mpr h.1))
    · rw [he] at hc
      simp [ValidateResponse.isValid] at hc
  · by_cases hact : o.is_active = true
    · by_cases hlock : o.account_locked = true
      · have he : validate db now token = (.lockedAccount, db) := by
          simp [validate, hne, hj, hexp, hact, hlock]
        refine ⟨?_, fun hc => absurd hc hexp, fun hc => ?_⟩
        · rw [he]
          exact iff_of_false (by simp [ValidateResponse.isValid])
            (fun h => by simp [h.2.2] at hlock)
        · rw [he] at hc
          simp [ValidateResponse.isValid] at hc
      · have he : validate db now token =
            (.valid s.official_id, { db with
              sessions := db.sessions.map (fun x =>
                if x.session_token = token then { x with last_activity := now }
                else x) }) := by
          simp [validate, hne, hj, hexp, hact, hlock]
        refine ⟨?_, fun hc => absurd hc hexp, fun _ => he⟩
        rw [he]
        exact iff_of_true (by simp [ValidateResponse.isValid])
          ⟨Nat.not_lt.mp hexp, hact, by simpa using hlock⟩
    · have he : validate db now token = (.inactiveAccount, db) := by
        simp [validate, hne, hj, hexp, hact]
      refine ⟨?_, fun hc => absurd hc hexp, fun hc => ?_⟩
      · rw [he]
        exact iff_of_false (by simp [ValidateResponse.isValid])
          (fun h => absurd h.2.1 hact)
      · rw [he] at hc
        simp [ValidateResponse.isValid] at hc

/-- C3 witness: a session validated strictly before expiry with an active,
unlocked owner is reported valid. -/
theorem C3_witness :
    ((validate dbC3 50 "tok-c3").1).isValid = true :=
  ((C3_validate_characterization dbC3 50 "tok-c3" sC3 oC3
      (by decide) rfl).1).mpr (by decide)

/-- Evaluation of a successful change-password call: the inline session
query resolved `owner`, and the body's `employee_id` plus current-password
hash matched `target`.  The final state has `target`'s hash replaced,
`target`'s sessions deleted, and one `password_change` audit entry
attributed to `owner`. -/
theorem changePassword_success_eq (hashFn : String → String) (db : DB)
    (now : Nat) (token : String) (body : ChangePasswordBody)
    (owner target : Official)
    (hown : adminSessionOwner db now token = some owner)
    (htarget : db.officials.find? (fun o =>
      o.employee_id = body.employee_id ∧
      o.password_hash = hashFn body.current_password) = some target) :
    changePassword hashFn db now token body true =
      (.success,
        { officials := db.officials.map (fun o =>
            if o.id = target.id then
              { o with password_hash := hashFn body.new_password,
                       updated_at := now }
            else o),
          sessions := db.sessions.filter (fun s => s.official_id ≠ target.id),
          audit_logs := db.audit_logs ++
            [{ official_id := owner.id, action := "password_change",
               entity_type := none, entity_id := none,
               details := some "\x7b\"success\":true\x7d",
               ip_address := none, user_agent := none,
               created_at := now }] }) := by
  simp only [changePassword, hown, htarget]
  exact if_pos trivial

/-- A token with no matching session row never validates. -/
theorem validate_no_session (db : DB) (now : Nat) (t : String)
    (h : db.sessions.find? (fun s => s.session_token = t) = none) :
    ((validate db now t).1).isValid = false := by
  by_cases ht : t = ""
  · simp [validate, ht, ValidateResponse.isValid]
  · simp [validate, joinSession, ht, h, ValidateResponse.isValid]

/-- C4 fixture officials: the session owner (id 1) and the official whose
password gets changed (id 2). -/
def oC4owner : Official :=
  { baseOfficial with
    id := 1, employee_id := "E401", email := "c4a@erca.gov.et",
    password_hash := "hashA" }

/-- C4 fixture target official. -/
def oC4target : Official :=
  { baseOfficial with
    id := 2, employee_id := "E402", email := "c4b@erca.gov.et",
    password_hash := "hashB" }

/-- C4 fixture database: the target holds two live sessions. -/
def dbC4 : DB :=
  { officials := [oC4owner, oC4target],
    sessions := [mkSession 1 "tok-c4a" 10000, mkSession 2 "tok-c4b" 10000,
      mkSession 2 "tok-c4c" 10000],
    audit_logs := [] }

/-- C4 fixture request body, naming the target official. -/
def bodyC4 : ChangePasswordBody :=
  { employee_id := "E402", current_password := "hashB",
    new_password := "newpw123" }

/-- C4: when the change-password endpoint returns success, every session
row of the official whose password was changed (the official matched by the
body's `employee_id` and current password) has been deleted before the
response, so any token all of whose rows belonged to that official
subsequently fails validation. -/
theorem C4_change_password_revokes (hashFn : String → String) (db : DB)
    (now : Nat) (token : String) (body : ChangePasswordBody) (auditOk : Bool)
    (target : Official)
    (htarget : db.officials.find? (fun o =>
      o.employee_id = body.employee_id ∧
      o.password_hash = hashFn body.current_password) = some target)
    (hsucc : (changePassword hashFn db now token body auditOk).1 = .success) :
    ((changePassword hashFn db now token body auditOk).2.sessions.all
      (fun s => s.official_id ≠ target.id)) = true ∧
    (∀ t now2,
      (∀ s ∈ db.sessions, s.session_token = t → s.official_id = target.id) →
      ((validate (changePassword hashFn db now token body auditOk).2 now2 t).1).isValid
        = false) := by
  cases hown : adminSessionOwner db now token with
  | none => simp [changePassword, hown] at hsucc
  | some owner =>
    cases auditOk with
    | false =>
      simp only [changePassword, hown, htarget] at hsucc
      simp at hsucc
    | true =>
      rw [changePassword_success_eq hashFn db now token body owner target
        hown htarget]
      refine ⟨?_, ?_⟩
      · simp only [List.all_eq_true]
        intro x hx
        exact (List.mem_filter.mp hx).2
      · intro t now2 hall
        apply validate_no_session
        show List.find? (fun s => s.session_token = t)
          (db.sessions.filter (fun s => s.official_id ≠ target.id)) = none
        rw [List.find?_eq_none]
        intro x hx hxt
        have hm := List.mem_filter.mp hx
        have hne2 : x.official_id ≠ target.id := by simpa using hm.2
        exact hne2 (hall x hm.1 (by simpa using hxt))

/-- C4 witness: after official 2's password is changed through official 1's
session, official 2's previously issued token no longer validates. -/
theorem C4_witness :
    ((validate (changePassword id dbC4 500 "tok-c4a" bodyC4 true).2
      600 "tok-c4b").1).isValid = false :=
  (C4_change_password_revokes id dbC4 500 "tok-c4a" bodyC4 true oC4target
    rfl rfl).2 "tok-c4b" 600 (by decide)

/-- C5 fixture session owner (id 1). -/
def oC5owner : Official :=
  { baseOfficial with
    id := 1, employee_id := "E500", email := "c5a@erca.gov.et",
    password_hash := "pwA5" }

/-- C5 fixture body-named official (id 2). -/
def oC5target : Official :=
  { baseOfficial with
    id := 2, employee_id := "E501", email := "c5b@erca.gov.et",
    password_hash := "pwB5" }

/-- C5 fixture database. -/
def dbC5 : DB :=
  { officials := [oC5owner, oC5target],
    sessions := [mkSession 1 "tok-c5a" 10000, mkSession 2 "tok-c5b" 10000],
    audit_logs := [] }

/-- C5 fixture body: names official 2 while the session belongs to 1. -/
def bodyC5 : ChangePasswordBody :=
  { employee_id := "E501", current_password := "pwB5",
    new_password := "newpass99" }

/-- C5: given any valid unexpired session of an active official, the
change-password endpoint verifies the current password against the official
named by the BODY's `employee_id` (not the session owner); on a match that
official's hash is replaced and that official's sessions are deleted — even
when the session owner is a different official — and the `password_change`
audit entry is attributed to the session owner. -/
theorem C5_change_password_body_semantics (hashFn : String → String)
    (db : DB) (now : Nat) (token : String) (body : ChangePasswordBody)
    (sessionOwner target : Official)
    (hown : adminSessionOwner db now token = some sessionOwner)
    (htarget : db.officials.find? (fun o =>
      o.employee_id = body.employee_id ∧
      o.password_hash = hashFn body.current_password) = some target) :
    target.employee_id = body.employee_id ∧
    changePassword hashFn db now token body true =
      (.success,
        { officials := db.officials.map (fun o =>
            if o.id = target.id then
              { o with password_hash := hashFn body.new_password,
                       updated_at := now }
            else o),
          sessions := db.sessions.filter (fun s => s.official_id ≠ target.id),
          audit_logs := db.audit_logs ++
            [{ official_id := sessionOwner.id, action := "password_change",
               entity_type := none, entity_id := none,
               details := some "\x7b\"success\":true\x7d",
               ip_address := none, user_agent := none,
               created_at := now }] }) := by
  refine ⟨?_, changePassword_success_eq hashFn db now token body sessionOwner
    target hown htarget⟩
  have hp := List.find?_some htarget
  simp at hp
  exact hp.1

/-- C5 witness: through official 1's session a request naming official 2
succeeds, deletes exactly official 2's sessions, and writes the audit entry
under official 1's id. -/
theorem C5_witness :
    (changePassword id dbC5 500 "tok-c5a" bodyC5 true).1 = .success ∧
    (changePassword id dbC5 500 "tok-c5a" bodyC5 true).2.sessions =
      [mkSession 1 "tok-c5a" 10000] ∧
    (changePassword id dbC5 500 "tok-c5a" bodyC5 true).2.audit_logs.map
      (fun e => e.official_id) = [1] := by
  rw [(C5_change_password_body_semantics id dbC5 500 "tok-c5a" bodyC5
    oC5owner oC5target rfl rfl).2]
  exact ⟨rfl, rfl, rfl⟩

/-- C6 fixture: an ACTIVE official holding `can_manage_officials` but not
super admin, with a live session. -/
def oC6 : Official :=
  { baseOfficial with
    id := 1, employee_id := "E600", email := "c6@erca.gov.et",
    can_manage_officials := true }

/-- C6 fixture database. -/
def dbC6 : DB :=
  { officials := [oC6], sessions := [mkSession 1 "tok-c6" 10000],
    audit_logs := [] }

/-- C6 auxiliary create body (arbitrary, only instantiates the theorem). -/
def cbodyC6 : CreateBody :=
  { full_name := "Aux", employee_id := "E699", email := "c6new@erca.gov.et",
    phone := none, password := none, rank_name := none, department := none,
    office_location := none, rank := none }

/-- C6 auxiliary empty patch. -/
def patchC6 : UpdatePatch :=
  { full_name := none, email := none, phone := none, rank_name := none,
    department := none, office_location := none, is_active := none }

/-- C6 counterexample: the claim says granting `manage_officials` adds the
ability to call the officials-listing endpoints; but `GET
/api/erca/officials` demands `is_super_admin` and ignores
`can_manage_officials`: an active manager with a valid session gets 403. -/
theorem C6_counterexample :
    oC6.can_manage_officials = true ∧ oC6.is_super_admin = false ∧
    oC6.is_active = true ∧
    (getOfficials dbC6 500 "tok-c6").1 = .forbidden :=
  ⟨rfl, rfl, rfl, rfl⟩

/-- C6 (amended): the admin officials list, create and update endpoints are
gated exactly by an unexpired session of an ACTIVE official who is super
admin or holds `can_manage_officials` (no other capability flag matters),
while `GET /api/erca/officials` is gated exactly by an unexpired session of
a super admin, ignoring `can_manage_officials` entirely. -/
theorem C6_authorization_characterization (hashFn : String → String)
    (db : DB) (now : Nat) (token : String) (cbody : CreateBody) (uid : Nat)
    (p : UpdatePatch) (auditOk : Bool) :
    ((adminListOfficials db now token).1 = .unauthorized ↔
      manageAuth db now token = false) ∧
    ((adminCreateOfficial hashFn db now token cbody auditOk).1 = .unauthorized ↔
      manageAuth db now token = false) ∧
    ((adminUpdateOfficial db now token uid p auditOk).1 = .unauthorized ↔
      manageAuth db now token = false) ∧
    ((getOfficials db now token).1 = .forbidden ↔
      (token ≠ "" ∧ superOnlyAuth db now token = false)) ∧
    (manageAuth db now token = true ↔
      ∃ s o, joinSession db token = some (s, o) ∧ o.is_active = true ∧
        now < s.expires_at ∧
        (o.is_super_admin = true ∨ o.can_manage_officials = true)) ∧
    (superOnlyAuth db now token = true ↔
      ∃ s o, joinSession db token = some (s, o) ∧ now < s.expires_at ∧
        o.is_super_admin = true) := by
  refine ⟨?_, ?_, ?_, ?_, ?_, ?_⟩
  · cases hso : adminSessionOwner db now token with
    | none => simp [adminListOfficials, manageAuth, hso]
    | some o =>
      by_cases hcap : (o.is_super_admin = true ∨ o.can_manage_officials = true) <;>
        simp [adminListOfficials, manageAuth, hso, hcap]
  · cases hso : adminSessionOwner db now token with
    | none => simp [adminCreateOfficial, manageAuth, hso]
    | some o =>
      by_cases hcap : (o.is_super_admin = true ∨ o.can_manage_officials = true)
      · constructor
        · intro h
          by_cases hdup : ∃ x ∈ db.officials,
              x.employee_id = cbody.employee_id ∨ x.email = cbody.email
          · simp [adminCreateOfficial, hso, hcap, hdup] at h
          · cases auditOk with
            | true => simp [adminCreateOfficial, hso, hcap, hdup] at h
            | false => simp [adminCreateOfficial, hso, hcap, hdup] at h
        · intro h
          exact absurd h (by simp [manageAuth, hso, hcap])
      · simp [adminCreateOfficial, manageAuth, hso, hcap]
  · cases hso : adminSessionOwner db now token with
    | none => simp [adminUpdateOfficial, manageAuth, hso]
    | some o =>
      by_cases hcap : (o.is_super_admin = true ∨ o.can_manage_officials = true)
      · constructor
        · intro h
          cases hec : emailConflict db uid p with
          | true => simp [adminUpdateOfficial, hso, hcap, hec] at h
          | false =>
            cases auditOk with
            | true => simp [adminUpdateOfficial, hso, hcap, hec] at h
            | false => simp [adminUpdateOfficial, hso, hcap, hec] at h
        · intro h
          exact absurd h (by simp [manageAuth, hso, hcap])
      · simp [adminUpdateOfficial, manageAuth, hso, hcap]
  · by_cases h0 : token = ""
    · simp [getOfficials, superOnlyAuth, h0]
    · cases hjs : joinSession db token with
      | none => simp [getOfficials, superOnlyAuth, h0, hjs]
      | some pso =>
        obtain ⟨s, o⟩ := pso
        by_cases hc : (now < s.expires_at ∧ o.is_super_admin = true) <;>
          simp [getOfficials, superOnlyAuth, h0, hjs, hc]
  · constructor
    · intro hm
      cases hjs : joinSession db token with
      | none => simp [manageAuth, adminSessionOwner, hjs] at hm
      | some pso =>
        obtain ⟨s, o⟩ := pso
        by_cases hc : (o.is_active = true ∧ now < s.expires_at)
        · refine ⟨s, o, rfl, hc.1, hc.2, ?_⟩
          simp [manageAuth, adminSessionOwner, hjs, hc] at hm
          exact hm
        · simp [manageAuth, adminSessionOwner, hjs, hc] at hm
    · rintro ⟨s, o, hjs, hact, hexp, hcap⟩
      simp [manageAuth, adminSessionOwner, hjs, hact, hexp]
      exact hcap
  · constructor
    · intro hm
      cases hjs : joinSession db token with
      | none => simp [superOnlyAuth, hjs] at hm
      | some pso =>
        obtain ⟨s, o⟩ := pso
        by_cases hc : (now < s.expires_at ∧ o.is_super_admin = true)
        · exact ⟨s, o, rfl, hc.1, hc.2⟩
        · simp [superOnlyAuth, hjs, hc] at hm
    · rintro ⟨s, o, hjs, hexp, hsup⟩
      simp [superOnlyAuth, hjs, hexp, hsup]

/-- C6 witness: the active manager of `dbC6` satisfies the admin gate,
via the explicit characterization. -/
theorem C6_witness :
    manageAuth dbC6 500 "tok-c6" = true :=
  ((C6_authorization_characterization id dbC6 500 "tok-c6" cbodyC6 1 patchC6
      true).2.2.2.2.1).mpr
    ⟨mkSession 1 "tok-c6" 10000, oC6, rfl, rfl, by decide, Or.inr rfl⟩

/-- C7 fixture super admin (id 1). -/
def oC7admin : Official :=
  { baseOfficial with
    id := 1, employee_id := "E700", email := "c7a@erca.gov.et",
    is_super_admin := true }

/-- C7 fixture pre-existing official with employee code E701 (id 2). -/
def oC7dup : Official :=
  { baseOfficial with
    id := 2, employee_id := "E701", email := "c7b@erca.gov.et" }

/-- C7 fixture database. -/
def dbC7 : DB :=
  { officials := [oC7admin, oC7dup],
    sessions := [mkSession 1 "tok-c7" 10000], audit_logs := [] }

/-- C7 fixture admin-create body reusing the taken employee code E701. -/
def cbodyC7 : CreateBody :=
  { full_name := "Duplicate", employee_id := "E701",
    email := "c7new@erca.gov.et", phone := none, password := none,
    rank_name := none, department := none, office_location := none,
    rank := none }

/-- C7 counterexample: the claim says both creation endpoints report a
duplicate as a typed client error; but the admin create endpoint has no
duplicate pre-check — the INSERT's UNIQUE-constraint violation is caught by
the generic `catch` and surfaced as a 500 internal error (though, as
claimed, exactly one record with that employee code remains). -/
theorem C7_counterexample :
    (adminCreateOfficial id dbC7 500 "tok-c7" cbodyC7 true).1 = .serverError ∧
    (adminCreateOfficial id dbC7 500 "tok-c7" cbodyC7 true).2 = dbC7 ∧
    (dbC7.officials.filter (fun o => o.employee_id = "E701")).length = 1 :=
  ⟨rfl, rfl, rfl⟩

/-- C7 (amended): a second create with a taken employee code or email
persists nothing (the store keeps exactly the prior record): the register
endpoint pre-checks and reports a typed 400 duplicate error, while the
admin create endpoint lets the UNIQUE constraint reject the INSERT and
returns a 500 internal error. -/
theorem C7_duplicate_second_create (hashFn : String → String) (db : DB)
    (now : Nat) (body : RegisterBody) (token : String) (cbody : CreateBody)
    (auditOk : Bool) :
    ((body.employee_id ≠ "" ∧ body.full_name ≠ "" ∧ body.email ≠ "" ∧
        body.password ≠ "" ∧ body.department ≠ "" ∧ body.rank_name ≠ "") →
      validEmail body.email = true →
      8 ≤ body.password.length →
      body.created_by_token = none →
      (∃ x ∈ db.officials,
        x.employee_id = body.employee_id ∨ x.email = body.email) →
      register hashFn db now body = (.duplicate, db)) ∧
    (manageAuth db now token = true →
      (∃ x ∈ db.officials,
        x.employee_id = cbody.employee_id ∨ x.email = cbody.email) →
      adminCreateOfficial hashFn db now token cbody auditOk =
        (.serverError, db)) := by
  constructor
  · intro hfields hemail hlen hcb hdup
    obtain ⟨h1, h2, h3, h4, h5, h6⟩ := hfields
    simp [register, h1, h2, h3, h4, h5, h6, hemail, hcb, hdup,
      Nat.not_lt.mpr hlen]
  · intro hauth hdup
    cases hso : adminSessionOwner db now token with
    | none => simp [manageAuth, hso] at hauth
    | some ow =>
      simp [manageAuth, hso] at hauth
      simp [adminCreateOfficial, hso, hauth, hdup]

/-- C7 fixture register body reusing the taken employee code E701. -/
def rbodyC7 : RegisterBody :=
  { employee_id := "E701", full_name := "Dupe Again",
    email := "c7reg@erca.gov.et", phone := none, password := "longpass1",
    department := "Audit", rank_name := "Officer", office_location := none,
    permissions := none, created_by_token := none }

/-- C7 witness: both creation paths hit the duplicate on the fixture store
and neither persists a second record. -/
theorem C7_witness :
    register id dbC7 500 rbodyC7 = (.duplicate, dbC7) ∧
    adminCreateOfficial id dbC7 500 "tok-c7" cbodyC7 true =
      (.serverError, dbC7) :=
  ⟨(C7_duplicate_second_create id dbC7 500 rbodyC7 "tok-c7" cbodyC7 true).1
      (by decide) (by decide) (by decide) rfl ⟨oC7dup, by decide, Or.inl rfl⟩,
   (C7_duplicate_second_create id dbC7 500 rbodyC7 "tok-c7" cbodyC7 true).2
      rfl ⟨oC7dup, by decide, Or.inl rfl⟩⟩

/-- C8 fixture super admin with password hash `pw8` and a live session. -/
def oC8 : Official :=
  { baseOfficial with
    id := 1, employee_id := "E800", email := "c8@erca.gov.et",
    password_hash := "pw8", is_super_admin := true }

/-- C8 fixture database. -/
def dbC8 : DB :=
  { officials := [oC8], sessions := [mkSession 1 "tok-c8" 10000],
    audit_logs := [] }

/-- C8 fixture admin-create body with a fresh employee code. -/
def cbodyC8 : CreateBody :=
  { full_name := "Newcomer", employee_id := "E801",
    email := "c8new@erca.gov.et", phone := none, password := none,
    rank_name := none, department := none, office_location := none,
    rank := none }

/-- C8 counterexample: an audit-log INSERT failure at login throws into the
handler's single `catch`, which returns a 500 — so the success response IS
blocked even though the session row (the primary effect) was already
persisted, contradicting the claim. -/
theorem C8_counterexample :
    (login id dbC8 500 "E800" "pw8" "sfx" none none false).1 = .serverError ∧
    (login id dbC8 500 "E800" "pw8" "sfx" none none false).2.sessions.map
      (fun s => s.session_token) = ["tok-c8", loginTokenString 500 "sfx"] :=
  ⟨rfl, rfl⟩

/-- C8 (amended): when the audit INSERT fails after the primary effect, the
login and admin-create endpoints return a 500 error response — not the
operation's success response — while the primary effect (the new session
row, the new official row) remains persisted. -/
theorem C8_audit_failure_blocks_success (hashFn : String → String) (db : DB)
    (now : Nat) (loginId password randSuffix : String) (ip ua : Option String)
    (token : String) (cbody : CreateBody) (o : Official)
    (h0 : loginId ≠ "") (h1 : password ≠ "")
    (hfind : db.officials.find? (credentialMatch loginId (hashFn password))
      = some o)
    (hact : o.is_active = true) (hlock : o.account_locked = false)
    (hfresh : ¬ ∃ s ∈ db.sessions,
      s.session_token = loginTokenString now randSuffix) :
    ((login hashFn db now loginId password randSuffix ip ua false).1
        = .serverError ∧
      (login hashFn db now loginId password randSuffix ip ua false).2.sessions.map
        (fun s => s.session_token) =
        db.sessions.map (fun s => s.session_token)
          ++ [loginTokenString now randSuffix]) ∧
    (manageAuth db now token = true →
      (¬ ∃ x ∈ db.officials,
        x.employee_id = cbody.employee_id ∨ x.email = cbody.email) →
      ((adminCreateOfficial hashFn db now token cbody false).1 = .serverError ∧
        (adminCreateOfficial hashFn db now token cbody false).2.officials.map
          (fun x => x.employee_id) =
          db.officials.map (fun x => x.employee_id)
            ++ [cbody.employee_id])) := by
  refine ⟨⟨?_, ?_⟩, ?_⟩
  · simp [login, h0, h1, hfind, hact, hlock, hfresh]
  · simp [login, h0, h1, hfind, hact, hlock, hfresh]
  · intro hauth hdup
    cases hso : adminSessionOwner db now token with
    | none => simp [manageAuth, hso] at hauth
    | some ow =>
      simp [manageAuth, hso] at hauth
      refine ⟨?_, ?_⟩ <;> simp [adminCreateOfficial, hso, hauth, hdup]

/-- C8 witness: concrete audit-sink failures at login and at admin create
both yield 500 responses. -/
theorem C8_witness :
    (login id dbC8 500 "E800" "pw8" "sfx" none none false).1 = .serverError ∧
    (adminCreateOfficial id dbC8 500 "tok-c8" cbodyC8 false).1
      = .serverError :=
  ⟨(C8_audit_failure_blocks_success id dbC8 500 "E800" "pw8" "sfx" none none
      "tok-c8" cbodyC8 oC8 (by decide) (by decide) rfl rfl rfl
      (by decide)).1.1,
   ((C8_audit_failure_blocks_success id dbC8 500 "E800" "pw8" "sfx" none none
      "tok-c8" cbodyC8 oC8 (by decide) (by decide) rfl rfl rfl
      (by decide)).2 rfl (by decide)).1⟩

/-- C9 fixture officials. -/
def oC9a : Official :=
  { baseOfficial with
    id := 1, employee_id := "E900", email := "c9a@erca.gov.et",
    password_hash := "pw9a" }

/-- C9 second fixture official. -/
def oC9b : Official :=
  { baseOfficial with
    id := 2, employee_id := "E901", email := "c9b@erca.gov.et",
    password_hash := "pw9b" }

/-- C9 fixture database with no sessions. -/
def dbC9 : DB := { officials := [oC9a, oC9b], sessions := [], audit_logs := [] }

/-- C9 counterexample: tokens of the effective login route are NOT unique —
two logins (here by different officials) in the same millisecond with the
same `Math.random()` draw are issued the identical token, since the token
is the deterministic `erca_<Date.now()>_<suffix>` and not an output of the
crypto-random `generateSessionToken` (whose outputs are 64 hex characters). -/
theorem C9_counterexample :
    (login id dbC9 5 "E900" "pw9a" "k3j9x2" none none true).1 =
      .success 1 "erca_5_k3j9x2" 86400005 ∧
    (login id dbC9 5 "E901" "pw9b" "k3j9x2" none none true).1 =
      .success 2 "erca_5_k3j9x2" 86400005 :=
  ⟨rfl, rfl⟩

/-- C9 (amended): every token issued by the effective login route equals
`loginTokenString now randSuffix` — a deterministic function of `Date.now()`
and a single `Math.random()` draw — and for a fixed millisecond the tokens
obtainable from ANY decoding of that draw's 64-bit float representation
number at most 2^64, far below the 2^128 needed for 128 bits of entropy. -/
theorem C9_token_structure_and_entropy (hashFn : String → String) (db : DB)
    (now : Nat) (loginId password randSuffix : String) (ip ua : Option String)
    (auditOk : Bool) (oid : Nat) (tok : String) (expAt : Nat)
    (dec64 : Fin (2 ^ 64) → String)
    (h : (login hashFn db now loginId password randSuffix ip ua auditOk).1 =
      .success oid tok expAt) :
    tok = loginTokenString now randSuffix ∧
    (Finset.univ.image (fun b => loginTokenString now (dec64 b))).card
      < 2 ^ 128 := by
  constructor
  · simp only [login] at h
    split at h
    · simp at h
    · split at h
      · simp at h
      · split at h
        · simp at h
        · split at h
          · simp at h
          · split at h
            · simp at h
            · split at h
              · simp only [Prod.fst] at h
                cases h
                rfl
              · simp at h
  · have hle : (Finset.univ.image
        (fun b => loginTokenString now (dec64 b))).card ≤ 2 ^ 64 := by
      calc (Finset.univ.image (fun b => loginTokenString now (dec64 b))).card
          ≤ (Finset.univ : Finset (Fin (2 ^ 64))).card := Finset.card_image_le
        _ = 2 ^ 64 := by rw [Finset.card_univ, Fintype.card_fin]
    exact lt_of_le_of_lt hle (by norm_num)

/-- C9 witness: the concrete issued token has the deterministic shape, and
the fixed-millisecond token space is below 2^128. -/
theorem C9_witness :
    "erca_5_k3j9x2" = loginTokenString 5 "k3j9x2" ∧
    (Finset.univ.image (fun b : Fin (2 ^ 64) =>
      loginTokenString 5 ((fun _ => "s") b))).card < 2 ^ 128 :=
  C9_token_structure_and_entropy id dbC9 5 "E900" "pw9a" "k3j9x2" none none
    true 1 "erca_5_k3j9x2" 86400005 (fun _ => "s") rfl

/-- C10 fixture manager (id 1). -/
def oC10mgr : Official :=
  { baseOfficial with
    id := 1, employee_id := "EA00", email := "c10a@erca.gov.et",
    can_manage_officials := true }

/-- C10 fixture target official (id 2). -/
def oC10tgt : Official :=
  { baseOfficial with
    id := 2, employee_id := "EA01", email := "c10b@erca.gov.et",
    full_name := "Old Name" }

/-- C10 fixture database. -/
def dbC10 : DB :=
  { officials := [oC10mgr, oC10tgt],
    sessions := [mkSession 1 "tok-c10" 10000], audit_logs := [] }

/-- C10 patch with a present-but-empty `full_name`. -/
def patchC10 : UpdatePatch :=
  { full_name := some "", email := none, phone := none, rank_name := none,
    department := none, office_location := none, is_active := none }

/-- C10 counterexample: the claim says the update applies exactly the
fields PRESENT in the patch; but the handler gates the text fields on JS
truthiness, so a present-but-empty `full_name` is silently skipped while
the update still succeeds and refreshes `updated_at`. -/
theorem C10_counterexample :
    (adminUpdateOfficial dbC10 500 "tok-c10" 2 patchC10 true).1 = .success ∧
    (adminUpdateOfficial dbC10 500 "tok-c10" 2 patchC10 true).2.officials.map
      (fun o => (o.full_name, o.updated_at)) =
      [("Base Official", 0), ("Old Name", 500)] :=
  ⟨rfl, rfl⟩

/-- C10 (amended): an authorized, conflict-free update maps exactly the
TRUTHY patched text fields and any present `is_active` onto the target row
(`applyPatch`), always refreshes the target's `updated_at`, appends one
`update_user` audit entry carrying the patch payload, and leaves every
other row, column and table unchanged. -/
theorem C10_update_semantics (db : DB) (now : Nat) (token : String)
    (uid : Nat) (p : UpdatePatch) (owner : Official)
    (hown : adminSessionOwner db now token = some owner)
    (hcap : owner.is_super_admin = true ∨ owner.can_manage_officials = true)
    (hnc : emailConflict db uid p = false) :
    adminUpdateOfficial db now token uid p true =
      (.success,
        { officials := db.officials.map (fun o =>
            if o.id = uid then applyPatch p now o else o),
          sessions := db.sessions,
          audit_logs := db.audit_logs ++
            [{ official_id := owner.id, action := "update_user",
               entity_type := some "official", entity_id := some uid,
               details := some (patchJson p), ip_address := none,
               user_agent := none, created_at := now }] }) := by
  simp only [adminUpdateOfficial, hown]
  rw [if_neg (by simp [hcap]), if_neg (by simp [hnc])]
  exact if_pos trivial

/-- C10 fixture patch with truthy fields and an explicit `is_active`. -/
def patchC10b : UpdatePatch :=
  { full_name := some "New Name", email := none, phone := none,
    rank_name := none, department := some "Enforcement",
    office_location := none, is_active := some false }

/-- C10 witness: an authorized update with truthy fields succeeds. -/
theorem C10_witness :
    (adminUpdateOfficial dbC10 500 "tok-c10" 2 patchC10b true).1
      = .success := by
  rw [C10_update_semantics dbC10 500 "tok-c10" 2 patchC10b oC10mgr rfl
    (Or.inr rfl) rfl]

end ErcaHub
